import Mathlib

/-
  Verification development for the Radioactive Tinapay chat/CTF server
  (src/server.py).  The session-state coordinator is embedded shallowly:

  * Python strings-or-None values (JSON fields, dict keys) are `PyStr :=
    Option String`; Python truthiness of such a value is `truthy`.
  * Python dicts (`self.connections`, `self.wait_list`, `self.teams`,
    `self.pending_teams`, `self.user_to_team`) are insertion-ordered
    association lists with `dlookup` / `dinsert` / `derase` mirroring
    `d[k]`-read, `d[k] = v`, and `del d[k]` (the `del` call sites check
    presence and surface Python's KeyError through `OpResult.raised`).
  * WebSocket connections are identified by `Nat` ids; the sqlite flag
    table is the in-state list `ServerState.flags` (append = INSERT,
    filter = SELECT ... WHERE teamname = ?).
  * Each server operation returns an `OpResult`: the mutated state, the
    list of I/O events it performed (sends, announcements, closes, logs)
    in program order, and the uncaught Python exception, if any, raised
    partway through (mutations before the raise persist, as in Python).
  * Best-effort fan-out (`send_msg`, `send_announcement`,
    `send_team_message`) is modelled by the `*_delivered` functions,
    parameterised by the set of closed peer connections.
-/

/-- A Python string-or-None value (JSON field contents, dict keys). -/
abbrev PyStr := Option String

/-- Python truthiness of a string-or-None value: None and "" are falsy. -/
def truthy : PyStr → Bool
  | none => false
  | some s => !(s == "")

/-- Python str() of a string-or-None value (as used in f-strings). -/
def pyRepr : PyStr → String
  | none => "None"
  | some s => s

/-- Dict read: first binding of the key, mirroring `d.get(k)` / `d[k]`. -/
def dlookup {α : Type} : List (PyStr × α) → PyStr → Option α
  | [], _ => none
  | p :: rest, k => if p.1 == k then some p.2 else dlookup rest k

/-- Dict key-membership test, mirroring `k in d`. -/
def dmem {α : Type} (d : List (PyStr × α)) (k : PyStr) : Bool :=
  (dlookup d k).isSome

/-- Dict write `d[k] = v`: replace in place, else append (insertion order). -/
def dinsert {α : Type} : List (PyStr × α) → PyStr → α → List (PyStr × α)
  | [], k, v => [(k, v)]
  | p :: rest, k, v => if p.1 == k then (k, v) :: rest else p :: dinsert rest k v

/-- Dict delete `del d[k]` (callers check presence first; absence raises). -/
def derase {α : Type} : List (PyStr × α) → PyStr → List (PyStr × α)
  | [], _ => []
  | p :: rest, k => if p.1 == k then derase rest k else p :: derase rest k

/-- `d.get(k)` on a dict whose values are themselves string-or-None. -/
def pyget (d : List (PyStr × PyStr)) (k : PyStr) : PyStr :=
  match dlookup d k with
  | some v => v
  | none => none

/-- Python `list.remove(x)`: drop the first occurrence (callers guard
membership where the source does; unguarded sites surface ValueError). -/
def listRemove : List PyStr → PyStr → List PyStr
  | [], _ => []
  | y :: ys, x => if y == x then ys else y :: listRemove ys x

/-- One row of the sqlite `flag` table (teamname column is nullable). -/
structure FlagRow where
  challenge : PyStr
  value : PyStr
  points : Int
  team : PyStr
  deriving DecidableEq, Repr

/-- An authenticated team: `self.teams[name]`. -/
structure Team where
  password : PyStr
  members : List PyStr
  leader : PyStr
  deriving DecidableEq, Repr

/-- A pending team proposal: `self.pending_teams[name]`. -/
structure PendingTeam where
  password : PyStr
  leader : PyStr
  deriving DecidableEq, Repr

/-- The mutable registry state of the `Server` object. -/
structure ServerState where
  connections : List (PyStr × Nat)
  wait_list : List (PyStr × Nat)
  teams : List (PyStr × Team)
  pending_teams : List (PyStr × PendingTeam)
  user_to_team : List (PyStr × PyStr)
  flags : List FlagRow
  deriving DecidableEq, Repr

/-- The state at server start: every registry empty. -/
def initialState : ServerState := ⟨[], [], [], [], [], []⟩

/-- A decoded inbound JSON frame.  Fields are `data.get(...)` reads
(`frm` models the JSON field `from`, `toUser` the field `to`); the
`c`-prefixed fields are the sub-fields of a flag frame's `content` dict.
`breakroom` is the truthiness of `data.get('breakroom')`.  `cpoints`
models `content.get('flag_points')` as an already-integral value (string
-valued points are not needed by any claim). -/
structure Frame where
  type : PyStr
  frm : PyStr
  toUser : PyStr
  content : PyStr
  breakroom : Bool
  action : PyStr
  teamname : PyStr
  password : PyStr
  target_user : PyStr
  caction : PyStr
  cchallenge : PyStr
  cvalue : PyStr
  cpoints : Option Int
  deriving DecidableEq, Repr

/-- An outbound reply payload (the JSON object sent to one peer). -/
inductive Reply where
  | auth (status : String) (frm : PyStr)
  | team (raction : String) (status : String) (content : String)
  | flagReject (content : String)
  | flagAccepted (content : String)
  | flagRows (rows : List FlagRow)
  | teamListContent (ts : List (PyStr × Team))
  | teamNames (ns : List PyStr)
  | pm (frm : PyStr) (toUser : PyStr) (content : PyStr)
  deriving DecidableEq, Repr

/-- One observable I/O action of an operation, in program order. -/
inductive Event where
  | log (msg : String)
  | reply (ws : Nat) (r : Reply)
  | direct (user : PyStr) (r : Reply)
  | announceOb (msg : String)
  | teamMsgOb (team : PyStr) (msg : String)
  | closeConn (user : PyStr)
  | closeWs (ws : Nat)
  deriving DecidableEq, Repr

/-- Result of one server operation: final state, events, uncaught raise. -/
structure OpResult where
  state : ServerState
  events : List Event
  raised : Option String
  deriving DecidableEq, Repr

/-- `Server.send_msg` (server.py:683): iterate `self.connections.items()`,
skip the sender unless it is the server, swallow ConnectionClosed on any
one recipient and keep going.  Returns the usernames actually reached,
given which connection ids are closed. -/
def send_msg_delivered : List (PyStr × Nat) → (Nat → Bool) → PyStr → List PyStr
  | [], _, _ => []
  | (name, c) :: rest, closed, sender =>
    if name != sender || sender == some "server" then
      (if closed c then [] else [name]) ++ send_msg_delivered rest closed sender
    else
      send_msg_delivered rest closed sender

/-- `Server.send_announcement` (server.py:713): iterate every connection,
swallow ConnectionClosed per recipient and continue. -/
def send_announcement_delivered : List (PyStr × Nat) → (Nat → Bool) → List PyStr
  | [], _ => []
  | (name, c) :: rest, closed =>
    (if closed c then [] else [name]) ++ send_announcement_delivered rest closed

/-- Member loop of `Server.send_team_message` (server.py:706): for each
team member that is currently connected, try to send, `continue` on
ConnectionClosed. -/
def team_fanout : List PyStr → List (PyStr × Nat) → (Nat → Bool) → List PyStr
  | [], _, _ => []
  | m :: rest, conns, closed =>
    match dlookup conns m with
    | some c => (if closed c then [] else [m]) ++ team_fanout rest conns closed
    | none => team_fanout rest conns closed

/-- `Server.send_team_message` (server.py:695): silently no-op when the
team does not exist, else fan out to its connected members. -/
def send_team_message_delivered (s : ServerState) (closed : Nat → Bool)
    (teamname : PyStr) : List PyStr :=
  match dlookup s.teams teamname with
  | some t => team_fanout t.members s.connections closed
  | none => []

/-- How the handler routes a `msg` frame with `to == None`. -/
inductive MsgRoute where
  | team (tn : PyStr) (message : String)
  | broadcast (sender : PyStr)
  deriving DecidableEq, Repr

/-- The `msg`-with-no-recipient branch of `Server.handler`
(server.py:243-250): look up the sender's team; if `breakroom` is truthy
and the sender has a team, call `send_team_message` with the content
tagged `[<from>] <content>`; otherwise fall through to `send_msg`. -/
def handleMsgNoTo (s : ServerState) (frm : PyStr) (breakroom : Bool)
    (content : PyStr) : MsgRoute :=
  let teamname := pyget s.user_to_team frm
  if breakroom && truthy teamname then
    MsgRoute.team teamname ("[" ++ pyRepr frm ++ "] " ++ pyRepr content)
  else
    MsgRoute.broadcast frm

/-- Recipients actually reached by a routed `msg` frame. -/
def deliverRoute (s : ServerState) (closed : Nat → Bool) : MsgRoute → List PyStr
  | MsgRoute.team tn _ => send_team_message_delivered s closed tn
  | MsgRoute.broadcast sender => send_msg_delivered s.connections closed sender

/-- `Server.authenticate` (server.py:663): if the claimed username is not
already connected, store (or overwrite) the waitlist entry under that
name with this websocket and reply `pending` on it; if the username is
already connected the request is silently ignored. -/
def authenticate (s : ServerState) (frm : PyStr) (ws : Nat) : OpResult :=
  if dmem s.connections frm then
    ⟨s, [], none⟩
  else
    ⟨{s with wait_list := dinsert s.wait_list frm ws},
     [Event.log ("INFO: Auth request from `" ++ pyRepr frm ++ "`"),
      Event.reply ws (Reply.auth "pending" frm)],
     none⟩

/-- `Server.cmd_auth` accept branch (server.py:289-302): if the name is
waitlisted, copy its connection into `connections`, reply `accepted` on
it, announce the join, and delete the waitlist entry; else log an error. -/
def cmdAuthAccept (s : ServerState) (client : PyStr) : OpResult :=
  match dlookup s.wait_list client with
  | some w =>
    ⟨{s with connections := dinsert s.connections client w,
             wait_list := derase s.wait_list client},
     [Event.log ("INFO: Accepting connection from " ++ pyRepr client),
      Event.reply w (Reply.auth "accepted" client),
      Event.announceOb ("User `" ++ pyRepr client ++ "` has joined")],
     none⟩
  | none => ⟨s, [Event.log "ERROR: Client not in wait list"], none⟩

/-- `Server.cmd_auth` reject branch (server.py:303-314): if the name is
waitlisted, reply `rejected`, close the connection, delete the entry. -/
def cmdAuthReject (s : ServerState) (client : PyStr) : OpResult :=
  match dlookup s.wait_list client with
  | some w =>
    ⟨{s with wait_list := derase s.wait_list client},
     [Event.reply w (Reply.auth "rejected" client), Event.closeWs w],
     none⟩
  | none => ⟨s, [Event.log "ERROR: Client not in wait list"], none⟩

/-- `Server.cmd_users` kick branch (server.py:340-359): if the target is
connected, announce the kick; when the target has a truthy team that
exists, remove it from the member list (deleting an emptied team) and
notify the team; then `del self.user_to_team[client]` - which raises
KeyError when the user has no team entry, skipping both the close and
the removal from `connections`; else close and delete the connection. -/
def cmdUsersKick (s : ServerState) (client : PyStr) : OpResult :=
  if dmem s.connections client then
    let evs := [Event.log ("INFO: Kicking user: `" ++ pyRepr client ++ "`"),
                Event.announceOb ("User `" ++ pyRepr client ++ "` has been kicked")]
    let tn := pyget s.user_to_team client
    match (if truthy tn then dlookup s.teams tn else none) with
    | some t =>
      if t.members.contains client then
        let ms := listRemove t.members client
        let s1 := {s with teams := if ms.isEmpty then derase s.teams tn
                                   else dinsert s.teams tn ⟨t.password, ms, t.leader⟩}
        ⟨{s1 with user_to_team := derase s1.user_to_team client,
                  connections := derase s1.connections client},
         evs ++ [Event.teamMsgOb tn ("User `" ++ pyRepr client ++ "` has been kicked"),
                 Event.closeConn client],
         none⟩
      else
        ⟨s, evs, some "ValueError"⟩
    | none =>
      if dmem s.user_to_team client then
        ⟨{s with user_to_team := derase s.user_to_team client,
                 connections := derase s.connections client},
         evs ++ [Event.closeConn client],
         none⟩
      else
        ⟨s, evs, some "KeyError"⟩
  else
    ⟨s, [Event.log ("ERROR: User `" ++ pyRepr client ++ "` not found")], none⟩

/-- `Server.cmd_team` auth branch (server.py:434-459): promote a pending
team to `teams` with members = [leader], map the leader to the team,
send the acceptance over `self.connections[leader]` - a raw dict index
that raises KeyError when the leader is not connected (the pending entry
is then never deleted) - then announce and delete the pending entry. -/
def cmdTeamAuth (s : ServerState) (teamname : PyStr) : OpResult :=
  match dlookup s.pending_teams teamname with
  | some p =>
    let s2 := {s with teams := dinsert s.teams teamname ⟨p.password, [p.leader], p.leader⟩,
                      user_to_team := dinsert s.user_to_team p.leader teamname}
    match dlookup s2.connections p.leader with
    | some w =>
      ⟨{s2 with pending_teams := derase s2.pending_teams teamname},
       [Event.log ("INFO: Accepting team `" ++ pyRepr teamname ++ "`"),
        Event.reply w (Reply.team "create" "accepted" (pyRepr teamname)),
        Event.announceOb ("Team `" ++ pyRepr teamname ++ "` has been authenticated")],
       none⟩
    | none =>
      ⟨s2, [Event.log ("INFO: Accepting team `" ++ pyRepr teamname ++ "`")],
       some "KeyError"⟩
  | none => ⟨s, [Event.log "ERROR: Team not in pending list"], none⟩

/-- `Server.handle_flag` (server.py:727-832): reject (with a submit-worded
message) any sender whose `user_to_team` entry is not truthy, before
even looking at the action; `submit` validates fields and appends a row
tagged with the sender's team, then notifies the team (breakroom) or
everyone; `show` replies to the requesting websocket only, with the rows
filtered by the sender's team when `breakroom` is truthy, else all rows.
An unrecognized action does nothing.  (The announce/team-message texts
are abbreviated; claims only concern recipients and state.) -/
def handle_flag (s : ServerState) (f : Frame) (ws : Nat) : OpResult :=
  let sender := f.frm
  let teamname := pyget s.user_to_team sender
  if !(truthy teamname) then
    ⟨s, [Event.reply ws (Reply.flagReject "You must be in a team to submit flags"),
         Event.log ("ERROR: User `" ++ pyRepr sender ++ "` not in a team")],
     none⟩
  else if f.caction == some "submit" then
    if !(truthy f.cchallenge && truthy f.cvalue && f.cpoints.isSome) then
      ⟨s, [Event.log "ERROR: Missing required flag fields",
           Event.reply ws (Reply.flagReject "Missing required flag fields")],
       none⟩
    else
      let row : FlagRow := ⟨f.cchallenge, f.cvalue, f.cpoints.getD 0, teamname⟩
      let evs := [Event.log "INFO: Flag submitted",
                  Event.reply ws (Reply.flagAccepted "Flag submitted")]
      if truthy teamname && f.breakroom then
        ⟨{s with flags := s.flags ++ [row]},
         evs ++ [Event.teamMsgOb teamname "Flag submitted"], none⟩
      else
        ⟨{s with flags := s.flags ++ [row]},
         evs ++ [Event.announceOb "Flag submitted"], none⟩
  else if f.caction == some "show" then
    let rows := if truthy teamname && f.breakroom then
                  s.flags.filter (fun r => r.team == teamname)
                else s.flags
    ⟨s, [Event.reply ws (Reply.flagRows rows)], none⟩
  else
    ⟨s, [], none⟩

/-- `Server.handle_pm` (server.py:834-893): validate recipient and
content truthiness, report an unknown recipient back to the sender,
enforce same-team membership when `breakroom` is truthy and the sender
has a team, else deliver the private message.  Never mutates registry
state. -/
def handle_pm (s : ServerState) (f : Frame) : OpResult :=
  let target := f.toUser
  let sender := f.frm
  let message := f.content
  let tn := pyget s.user_to_team sender
  if !(truthy target && truthy message) then
    ⟨s, [Event.log "ERROR: Invalid private message format"], none⟩
  else if !(dmem s.connections target) then
    ⟨s, [Event.log "ERROR: Target user not found",
         Event.direct sender (Reply.pm (some "server") sender
           (some ("User `" ++ pyRepr target ++ "` is not connected")))],
     none⟩
  else if f.breakroom && truthy tn && !(pyget s.user_to_team target == tn) then
    ⟨s, [Event.log "ERROR: Target user not in team",
         Event.direct sender (Reply.pm (some "server") sender
           (some ("User `" ++ pyRepr target ++ "` is not in your team")))],
     none⟩
  else
    ⟨s, [Event.direct target (Reply.pm sender target message),
         Event.log "INFO: Private message sent"],
     none⟩

/-- `Server.handle_team` (server.py:894-1036).
`create`: reject falsy teamname/password or an existing (pending or
authenticated) name, else record the pending proposal keyed by teamname
with the sender as leader and reply `pending`.
`join`: reject falsy fields, unknown team, or wrong password; else
append the sender to the member list (no check that the sender is
already in this or another team), point `user_to_team[sender]` at the
team, reply `accepted` and notify the team.
`kick`: reject when `self.teams.get(teamname, {}).get('leader')` differs
from the sender (after which the raw `self.teams[teamname]` index can
raise KeyError if the team is absent), reject a target that is not a
member; else remove the target (deleting an emptied team), then
`del self.user_to_team[target_user]` - KeyError when the target has no
entry - notify the team and, when connected, the target.
`list` / `listteams`: reply with the team table / names; anything else
does nothing. -/
def handle_team (s : ServerState) (f : Frame) (ws : Nat) : OpResult :=
  let sender := f.frm
  if f.action == some "create" then
    if !(truthy f.teamname && truthy f.password) then
      ⟨s, [Event.log "ERROR: Missing teamname or password",
           Event.reply ws (Reply.team "create" "rejected" "Missing teamname or password")],
       none⟩
    else if dmem s.teams f.teamname || dmem s.pending_teams f.teamname then
      ⟨s, [Event.log "ERROR: Team already exists",
           Event.reply ws (Reply.team "create" "rejected" "Team already exists")],
       none⟩
    else
      ⟨{s with pending_teams := dinsert s.pending_teams f.teamname ⟨f.password, sender⟩},
       [Event.log "INFO: Team creation request",
        Event.reply ws (Reply.team "create" "pending" (pyRepr f.teamname))],
       none⟩
  else if f.action == some "join" then
    if !(truthy f.teamname && truthy f.password) then
      ⟨s, [Event.log "ERROR: Missing teamname or password",
           Event.reply ws (Reply.team "join" "rejected" "Missing teamname or password")],
       none⟩
    else
      match dlookup s.teams f.teamname with
      | none =>
        ⟨s, [Event.log "ERROR: Team not found",
             Event.reply ws (Reply.team "join" "rejected" "Team not found")],
         none⟩
      | some t =>
        if !(t.password == f.password) then
          ⟨s, [Event.log "ERROR: Incorrect password",
               Event.reply ws (Reply.team "join" "rejected" "Incorrect password")],
           none⟩
        else
          ⟨{s with teams := dinsert s.teams f.teamname ⟨t.password, t.members ++ [sender], t.leader⟩,
                   user_to_team := dinsert s.user_to_team sender f.teamname},
           [Event.log "INFO: User joined team",
            Event.reply ws (Reply.team "join" "accepted" (pyRepr f.teamname)),
            Event.teamMsgOb f.teamname ("User `" ++ pyRepr sender ++ "` has joined the team")],
           none⟩
  else if f.action == some "kick" then
    let leaderVal : PyStr :=
      match dlookup s.teams f.teamname with
      | some t => t.leader
      | none => none
    if !(leaderVal == sender) then
      ⟨s, [Event.log "ERROR: Only team leader can kick members",
           Event.reply ws (Reply.team "kick" "rejected" "Only team leader can kick members")],
       none⟩
    else
      match dlookup s.teams f.teamname with
      | none => ⟨s, [], some "KeyError"⟩
      | some t =>
        if !(t.members.contains f.target_user) then
          ⟨s, [Event.log "ERROR: User not in team",
               Event.reply ws (Reply.team "kick" "rejected" "User not in team")],
           none⟩
        else
          let ms := listRemove t.members f.target_user
          let s1 := {s with teams := if ms.isEmpty then derase s.teams f.teamname
                                     else dinsert s.teams f.teamname ⟨t.password, ms, t.leader⟩}
          if dmem s1.user_to_team f.target_user then
            let s2 := {s1 with user_to_team := derase s1.user_to_team f.target_user}
            ⟨s2,
             [Event.log "INFO: User kicked from team",
              Event.teamMsgOb f.teamname ("User `" ++ pyRepr f.target_user ++ "` has been kicked")] ++
             (if dmem s2.connections f.target_user then
                [Event.direct f.target_user (Reply.team "kick" "accepted"
                  ("You have been kicked from team `" ++ pyRepr f.teamname ++ "`"))]
              else []),
             none⟩
          else
            ⟨s1, [], some "KeyError"⟩
  else if f.action == some "list" then
    ⟨s, [Event.reply ws (Reply.teamListContent s.teams)], none⟩
  else if f.action == some "listteams" then
    ⟨s, [Event.reply ws (Reply.teamNames (s.teams.map (fun p => p.1)))], none⟩
  else
    ⟨s, [], none⟩

/-- Member loop of the team branch of `/team dq` (server.py:470-480): for
each member in order, if connected send the dq notice, close and delete
the connection; then `del self.user_to_team[member]`, which raises
KeyError for a member with no `user_to_team` entry (aborting the loop
with the mutations so far kept). -/
def dqLoop : List PyStr → List (PyStr × Nat) → List (PyStr × PyStr) → List Event →
    (List (PyStr × Nat) × List (PyStr × PyStr) × List Event × Option String)
  | [], conns, u2t, evs => (conns, u2t, evs, none)
  | m :: rest, conns, u2t, evs =>
    let step :=
      if dmem conns m then
        (derase conns m,
         evs ++ [Event.direct m (Reply.team "dq" "" "Team has been disqualified"),
                 Event.closeConn m])
      else (conns, evs)
    if dmem u2t m then
      dqLoop rest step.1 (derase u2t m) step.2
    else
      (step.1, u2t, step.2, some "KeyError")

/-- `Server.cmd_team` dq branch (server.py:461-502): if the target names
an authenticated team, run the member loop above, delete the team and
announce; otherwise, if the target is a mapped user, index
`self.teams[teamname]` (KeyError when that team is gone), remove the
user from the member list (ValueError when not listed), delete the team
if emptied else notify it, then close/delete the user's connection when
present and drop the `user_to_team` entry; else log not-found. -/
def cmdTeamDq (s : ServerState) (target : PyStr) : OpResult :=
  match dlookup s.teams target with
  | some t =>
    match dqLoop t.members s.connections s.user_to_team
        [Event.log ("INFO: Disqualifying team `" ++ pyRepr target ++ "`")] with
    | (conns, u2t, evs, none) =>
      ⟨{s with connections := conns, user_to_team := u2t,
               teams := derase s.teams target},
       evs ++ [Event.announceOb ("Team `" ++ pyRepr target ++ "` has been disqualified")],
       none⟩
    | (conns, u2t, evs, some e) =>
      ⟨{s with connections := conns, user_to_team := u2t}, evs, some e⟩
  | none =>
    match dlookup s.user_to_team target with
    | some tnv =>
      match dlookup s.teams tnv with
      | none => ⟨s, [Event.log "INFO: Disqualifying user"], some "KeyError"⟩
      | some t =>
        if !(t.members.contains target) then
          ⟨s, [Event.log "INFO: Disqualifying user"], some "ValueError"⟩
        else
          let ms := listRemove t.members target
          let s1 := {s with teams := if ms.isEmpty then derase s.teams tnv
                                     else dinsert s.teams tnv ⟨t.password, ms, t.leader⟩}
          let evs := [Event.log "INFO: Disqualifying user"] ++
            (if ms.isEmpty then []
             else [Event.teamMsgOb tnv ("User `" ++ pyRepr target ++ "` has been disqualified")])
          if dmem s1.connections target then
            ⟨{s1 with connections := derase s1.connections target,
                      user_to_team := derase s1.user_to_team target},
             evs ++ [Event.direct target (Reply.team "dq" ""
                       ("You have been disqualified from team `" ++ pyRepr tnv ++ "`")),
                     Event.closeConn target],
             none⟩
          else
            ⟨{s1 with user_to_team := derase s1.user_to_team target}, evs, none⟩
    | none => ⟨s, [Event.log "ERROR: Team or user not found"], none⟩

/-- `Server.cmd_flag` submit branch (server.py:369-400): the operator
inserts a row with a NULL teamname and announces it. -/
def cmdFlagSubmit (s : ServerState) (challenge value : String) (points : Int) : OpResult :=
  ⟨{s with flags := s.flags ++ [⟨some challenge, some value, points, none⟩]},
   [Event.log "INFO: Flag submitted", Event.announceOb "Flag submitted"],
   none⟩

/-- First loop of the disconnect-cleanup path of `Server.handler`
(server.py:209-222): scan `connections` for the first username bound to
this websocket; if found, announce the disconnect, do the team cascade
when the user has a truthy team that exists (remove the member, delete
an emptied team, notify the team), then `del self.user_to_team[client]`
- KeyError when the user has no entry, which skips
`del self.connections[client]` and aborts the whole cleanup - then
delete the connection entry. -/
def disconnectConnPhase (s : ServerState) (ws : Nat) : OpResult :=
  match s.connections.find? (fun p => p.2 == ws) with
  | none => ⟨s, [], none⟩
  | some (client, _) =>
    let evs := [Event.log ("INFO: Received disconnect from user: `" ++ pyRepr client ++ "`"),
                Event.announceOb ("User `" ++ pyRepr client ++ "` has disconnected")]
    let tn := pyget s.user_to_team client
    match (if truthy tn then dlookup s.teams tn else none) with
    | some t =>
      if t.members.contains client then
        let ms := listRemove t.members client
        let s1 := {s with teams := if ms.isEmpty then derase s.teams tn
                                   else dinsert s.teams tn ⟨t.password, ms, t.leader⟩}
        ⟨{s1 with user_to_team := derase s1.user_to_team client,
                  connections := derase s1.connections client},
         evs ++ [Event.teamMsgOb tn ("User `" ++ pyRepr client ++ "` has left the team")],
         none⟩
      else
        ⟨s, evs, some "ValueError"⟩
    | none =>
      if dmem s.user_to_team client then
        ⟨{s with user_to_team := derase s.user_to_team client,
                 connections := derase s.connections client},
         evs, none⟩
      else
        ⟨s, evs, some "KeyError"⟩

/-- Second loop of the cleanup (server.py:224-230), run only when the
first phase did not raise: scan the waitlist for the websocket and drop
the matching entry. -/
def handlerDisconnect (s : ServerState) (ws : Nat) : OpResult :=
  let afterConn := disconnectConnPhase s ws
  match afterConn.raised with
  | some _ => afterConn
  | none =>
    match afterConn.state.wait_list.find? (fun p => p.2 == ws) with
    | none => afterConn
    | some (client, _) =>
      ⟨{afterConn.state with wait_list := derase afterConn.state.wait_list client},
       afterConn.events ++
         [Event.log ("INFO: Received disconnect from waitlist user `" ++ pyRepr client ++ "`"),
          Event.announceOb ("Waitlist user `" ++ pyRepr client ++ "` has disconnected")],
       none⟩

/-- The per-frame dispatch of `Server.handler` (server.py:239-254): drop
(and stop reading from) an unauthenticated sender unless the frame type
is `auth` or `team` - note: every `team` action passes this gate, not
just `create`; route a recipient-less `msg` through `handleMsgNoTo`;
any other `msg` goes to `send_msg` (broadcast); otherwise dispatch on
the type to the registered handler, logging unknown types. -/
def handleFrame (s : ServerState) (f : Frame) (ws : Nat) : OpResult :=
  if !(dmem s.connections f.frm) && !(f.type == some "auth") && !(f.type == some "team") then
    ⟨s, [Event.log ("ERROR: Unauthenticated client: " ++ pyRepr f.frm)], none⟩
  else if f.type == some "msg" && f.toUser == none then
    match handleMsgNoTo s f.frm f.breakroom f.content with
    | MsgRoute.team tn msg =>
      ⟨s, [Event.log "INFO: Breakroom message", Event.teamMsgOb tn msg], none⟩
    | MsgRoute.broadcast sender =>
      ⟨s, [Event.log "INFO: Message", Event.announceOb ("broadcast from " ++ pyRepr sender)], none⟩
  else if f.type == some "msg" then
    ⟨s, [Event.announceOb ("broadcast from " ++ pyRepr f.frm)], none⟩
  else if f.type == some "auth" then
    authenticate s f.frm ws
  else if f.type == some "flag" then
    handle_flag s f ws
  else if f.type == some "pm" then
    handle_pm s f
  else if f.type == some "team" then
    handle_team s f ws
  else
    ⟨s, [Event.log "ERROR: Unknown message type"], none⟩

/-- One transition of the session-state coordinator: any inbound frame
on any websocket, any connection closing, or any operator command that
touches the registries. -/
inductive Step : ServerState → ServerState → Prop where
  | frame (s : ServerState) (f : Frame) (ws : Nat) : Step s (handleFrame s f ws).state
  | disconnect (s : ServerState) (ws : Nat) : Step s (handlerDisconnect s ws).state
  | opAuthAccept (s : ServerState) (c : PyStr) : Step s (cmdAuthAccept s c).state
  | opAuthReject (s : ServerState) (c : PyStr) : Step s (cmdAuthReject s c).state
  | opUsersKick (s : ServerState) (c : PyStr) : Step s (cmdUsersKick s c).state
  | opTeamAuth (s : ServerState) (t : PyStr) : Step s (cmdTeamAuth s t).state
  | opTeamDq (s : ServerState) (t : PyStr) : Step s (cmdTeamDq s t).state
  | opFlagSubmit (s : ServerState) (ch v : String) (p : Int) :
      Step s (cmdFlagSubmit s ch v p).state

/-- States reachable from server start through any operation sequence. -/
inductive Reachable : ServerState → Prop where
  | init : Reachable initialState
  | step {s s' : ServerState} : Reachable s → Step s s' → Reachable s'

/-- No username is both connected and waitlisted. -/
def disjointCW (s : ServerState) : Prop :=
  ∀ u, dmem s.connections u = true → dmem s.wait_list u = false

/-- Distinct keys, as every Python dict has. -/
def nodupKeys {α : Type} (d : List (PyStr × α)) : Prop :=
  (d.map Prod.fst).Nodup

/- Concrete frames and a concrete execution trace used to exhibit
reachable states.  `alice` (ws 1) and `bob` (ws 2) authenticate and are
accepted; alice proposes team `red` (password `pw`) which the operator
approves; from there the trace branches. -/

/-- Frame: `{type: auth, from: alice}`. -/
def fAuthAlice : Frame := ⟨some "auth", some "alice", none, none, false, none, none, none, none, none, none, none, none⟩

/-- Frame: `{type: auth, from: bob}`. -/
def fAuthBob : Frame := ⟨some "auth", some "bob", none, none, false, none, none, none, none, none, none, none, none⟩

/-- Frame: `{type: team, action: create, from: alice, teamname: red, password: pw}`. -/
def fCreateRed : Frame := ⟨some "team", some "alice", none, none, false, some "create", some "red", some "pw", none, none, none, none, none⟩

/-- Frame: `{type: team, action: create, from: bob, teamname: blue, password: pw2}`. -/
def fCreateBlue : Frame := ⟨some "team", some "bob", none, none, false, some "create", some "blue", some "pw2", none, none, none, none, none⟩

/-- Frame: `{type: team, action: join, from: alice, teamname: blue, password: pw2}`. -/
def fJoinBlueAlice : Frame := ⟨some "team", some "alice", none, none, false, some "join", some "blue", some "pw2", none, none, none, none, none⟩

/-- Frame: `{type: team, action: join, from: bob, teamname: red, password: pw}`. -/
def fJoinRedBob : Frame := ⟨some "team", some "bob", none, none, false, some "join", some "red", some "pw", none, none, none, none, none⟩

/-- Frame: `{type: team, action: join, from: eve, teamname: red, password: pw}` -
`eve` is never connected. -/
def fJoinRedEve : Frame := ⟨some "team", some "eve", none, none, false, some "join", some "red", some "pw", none, none, none, none, none⟩

/-- Frame: `{type: flag, from: alice, content: {action: show}}`. -/
def fShowAlice : Frame := ⟨some "flag", some "alice", none, none, false, none, none, none, none, some "show", none, none, none⟩

/-- Frame: `{type: flag, from: alice, content: {action: show}, breakroom: true}`. -/
def fShowAliceBreakroom : Frame := ⟨some "flag", some "alice", none, none, true, none, none, none, none, some "show", none, none, none⟩

/-- Frame: `{type: flag, from: alice, content: {action: submit, challenge_name: chal, flag_value: FLAG, flag_points: 100}}`. -/
def fSubmitAlice : Frame := ⟨some "flag", some "alice", none, none, false, none, none, none, none, some "submit", some "chal", some "FLAG", some 100⟩

/-- After alice's auth request: alice waitlisted on ws 1. -/
def st1 : ServerState := (handleFrame initialState fAuthAlice 1).state

/-- After `/auth accept alice`: alice connected. -/
def st2 : ServerState := (cmdAuthAccept st1 (some "alice")).state

/-- After bob's auth request on ws 2. -/
def st3 : ServerState := (handleFrame st2 fAuthBob 2).state

/-- After `/auth accept bob`: alice and bob connected, no teams. -/
def st4 : ServerState := (cmdAuthAccept st3 (some "bob")).state

/-- After alice proposes team `red`. -/
def st5 : ServerState := (handleFrame st4 fCreateRed 1).state

/-- After `/team auth red`: red = {members [alice], leader alice}. -/
def st6 : ServerState := (cmdTeamAuth st5 (some "red")).state

/-- After bob proposes team `blue`. -/
def st7 : ServerState := (handleFrame st6 fCreateBlue 2).state

/-- After `/team auth blue`: blue = {members [bob], leader bob}. -/
def st8 : ServerState := (cmdTeamAuth st7 (some "blue")).state

/-- After alice (already in red) joins blue with the right password. -/
def st9 : ServerState := (handleFrame st8 fJoinBlueAlice 1).state

/-- After bob joins red (from `st6`): red members [alice, bob]. -/
def tt7 : ServerState := (handleFrame st6 fJoinRedBob 2).state

/-- After alice (red's leader) disconnects from `tt7`. -/
def tt8 : ServerState := (handlerDisconnect tt7 1).state

/-- After alice (in red, from `st6`) submits a flag: one row for red. -/
def uf7 : ServerState := (handleFrame st6 fSubmitAlice 1).state

/-- Frame: `{type: msg, from: alice, content: hi, breakroom: true}` with
no recipient. -/
def fMsgBreakroomAlice : Frame := ⟨some "msg", some "alice", none, some "hi", true, none, none, none, none, none, none, none, none⟩

/-- After the operator submits a team-less flag at `st4` (no teams). -/
def vf5 : ServerState := (cmdFlagSubmit st4 "chal" "FLAG" 100).state

theorem dlookup_dinsert {α : Type} (d : List (PyStr × α)) (k u : PyStr) (v : α) :
    dlookup (dinsert d k v) u = if u = k then some v else dlookup d u := by
  induction d with
  | nil =>
    by_cases huk : u = k
    · subst huk; simp [dinsert, dlookup]
    · have h1 : (k == u) = false := beq_eq_false_iff_ne.mpr (Ne.symm huk)
      simp [dinsert, dlookup, h1, huk]
  | cons p rest ih =>
    by_cases hpk : p.1 = k
    · have h1 : (p.1 == k) = true := beq_iff_eq.mpr hpk
      by_cases huk : u = k
      · subst huk; simp [dinsert, dlookup, h1]
      · have h2 : (k == u) = false := beq_eq_false_iff_ne.mpr (Ne.symm huk)
        have h3 : (p.1 == u) = false := by rw [hpk]; exact h2
        simp [dinsert, dlookup, h1, h2, h3, huk]
    · have h1 : (p.1 == k) = false := beq_eq_false_iff_ne.mpr hpk
      by_cases hpu : p.1 = u
      · have h2 : (p.1 == u) = true := beq_iff_eq.mpr hpu
        have huk : ¬ u = k := fun hh => hpk (hpu.trans hh)
        simp [dinsert, dlookup, h1, h2, huk]
      · have h2 : (p.1 == u) = false := beq_eq_false_iff_ne.mpr hpu
        simp [dinsert, dlookup, h1, h2, ih]

theorem dlookup_derase {α : Type} (d : List (PyStr × α)) (k u : PyStr) :
    dlookup (derase d k) u = if u = k then none else dlookup d u := by
  induction d with
  | nil => simp [derase, dlookup]
  | cons p rest ih =>
    by_cases hpk : p.1 = k
    · have h1 : (p.1 == k) = true := beq_iff_eq.mpr hpk
      by_cases huk : u = k
      · subst huk; simp [derase, h1, ih]
      · have h3 : (p.1 == u) = false :=
          beq_eq_false_iff_ne.mpr (fun hh => huk (hh.symm.trans hpk))
        simp [derase, dlookup, h1, h3, ih, huk]
    · have h1 : (p.1 == k) = false := beq_eq_false_iff_ne.mpr hpk
      by_cases hpu : p.1 = u
      · have h2 : (p.1 == u) = true := beq_iff_eq.mpr hpu
        have huk : ¬ u = k := fun hh => hpk (hpu.trans hh)
        simp [derase, dlookup, h1, h2, huk]
      · have h2 : (p.1 == u) = false := beq_eq_false_iff_ne.mpr hpu
        simp [derase, dlookup, h1, h2, ih]

theorem dmem_dinsert_iff {α : Type} (d : List (PyStr × α)) (k u : PyStr) (v : α) :
    dmem (dinsert d k v) u = true ↔ u = k ∨ dmem d u = true := by
  by_cases h : u = k <;> simp [dmem, dlookup_dinsert, h]

theorem dmem_derase_imp {α : Type} {d : List (PyStr × α)} {k u : PyStr}
    (h : dmem (derase d k) u = true) : dmem d u = true := by
  by_cases h2 : u = k <;> simp_all [dmem, dlookup_derase]

theorem dmem_derase_self {α : Type} (d : List (PyStr × α)) (k : PyStr) :
    dmem (derase d k) k = false := by
  simp [dmem, dlookup_derase]

theorem dmem_derase_false {α : Type} {d : List (PyStr × α)} {k u : PyStr}
    (h : dmem d u = false) : dmem (derase d k) u = false := by
  by_cases h2 : u = k <;> simp_all [dmem, dlookup_derase]

theorem mem_dinsert_elim {α : Type} {d : List (PyStr × α)} {k : PyStr} {v : α}
    {p : PyStr × α} (hnd : nodupKeys d) (h : p ∈ dinsert d k v) :
    p = (k, v) ∨ (p ∈ d ∧ p.1 ≠ k) := by
  induction d with
  | nil => simp_all [dinsert]
  | cons q rest ih =>
    have hnd2 : nodupKeys rest := (List.nodup_cons.mp hnd).2
    by_cases h1 : q.1 = k
    · rw [dinsert, if_pos (by simp [h1])] at h
      rcases List.mem_cons.mp h with h | h
      · left; exact h
      · right
        refine ⟨List.mem_cons_of_mem _ h, fun hk => ?_⟩
        have : q.1 ∈ rest.map Prod.fst := by
          rw [h1, ← hk]; exact List.mem_map_of_mem _ h
        exact (List.nodup_cons.mp hnd).1 this
    · rw [dinsert, if_neg (by simp [h1])] at h
      rcases List.mem_cons.mp h with h | h
      · right; exact ⟨by simp [h], by simp [h, h1]⟩
      · rcases ih hnd2 h with h | h
        · left; exact h
        · right; exact ⟨List.mem_cons_of_mem _ h.1, h.2⟩

theorem dqLoop_conns_shrink (ms : List PyStr) (conns : List (PyStr × Nat))
    (u2t : List (PyStr × PyStr)) (evs : List Event) (u : PyStr)
    (h : dmem (dqLoop ms conns u2t evs).1 u = true) : dmem conns u = true := by
  induction ms generalizing conns u2t evs with
  | nil => simpa [dqLoop] using h
  | cons m rest ih =>
    rw [dqLoop] at h
    try dsimp only at h
    cases hc : dmem conns m <;> cases hu : dmem u2t m <;> simp only [hc, hu] at h
    · simpa using h
    · exact ih _ _ _ (by simpa using h)
    · exact dmem_derase_imp (by simpa using h)
    · exact dmem_derase_imp (ih _ _ _ (by simpa using h))

theorem dqLoop_conns_shrink2 {ms : List PyStr} {conns c2 : List (PyStr × Nat)}
    {u2t t2 : List (PyStr × PyStr)} {evs e2 : List Event} {r : Option String}
    {u : PyStr} (hdq : dqLoop ms conns u2t evs = (c2, t2, e2, r))
    (h : dmem c2 u = true) : dmem conns u = true :=
  dqLoop_conns_shrink ms conns u2t evs u (by rw [hdq]; exact h)

theorem cmdTeamDq_wl (s : ServerState) (t : PyStr) :
    (cmdTeamDq s t).state.wait_list = s.wait_list := by
  unfold cmdTeamDq
  repeat' split
  all_goals try rfl
  all_goals (dsimp only; repeat' split)
  all_goals rfl

theorem cmdTeamDq_conns_shrink (s : ServerState) (t : PyStr) (u : PyStr)
    (h : dmem (cmdTeamDq s t).state.connections u = true) :
    dmem s.connections u = true := by
  unfold cmdTeamDq at h
  split at h
  · split at h
    · rename_i heq
      exact dqLoop_conns_shrink2 heq (by simpa using h)
    · rename_i heq
      exact dqLoop_conns_shrink2 heq (by simpa using h)
  · split at h
    · split at h
      · exact h
      · split at h
        · exact h
        · dsimp only at h
          split at h
          · exact dmem_derase_imp (by simpa using h)
          · exact h
    · exact h

theorem handle_pm_state (s : ServerState) (f : Frame) :
    (handle_pm s f).state = s := by
  unfold handle_pm
  dsimp only
  repeat' split
  all_goals rfl

theorem handle_team_sess (s : ServerState) (f : Frame) (ws : Nat) :
    (handle_team s f ws).state.connections = s.connections ∧
    (handle_team s f ws).state.wait_list = s.wait_list := by
  unfold handle_team
  dsimp only
  repeat' split
  all_goals exact ⟨rfl, rfl⟩

theorem handle_flag_sess (s : ServerState) (f : Frame) (ws : Nat) :
    (handle_flag s f ws).state.connections = s.connections ∧
    (handle_flag s f ws).state.wait_list = s.wait_list := by
  unfold handle_flag
  dsimp only
  repeat' split
  all_goals exact ⟨rfl, rfl⟩

theorem cmdTeamAuth_sess (s : ServerState) (t : PyStr) :
    (cmdTeamAuth s t).state.connections = s.connections ∧
    (cmdTeamAuth s t).state.wait_list = s.wait_list := by
  unfold cmdTeamAuth
  dsimp only
  repeat' split
  all_goals exact ⟨rfl, rfl⟩

theorem cmdUsersKick_wl (s : ServerState) (c : PyStr) :
    (cmdUsersKick s c).state.wait_list = s.wait_list := by
  unfold cmdUsersKick
  dsimp only
  repeat' split
  all_goals rfl

theorem cmdUsersKick_conns_shrink (s : ServerState) (c : PyStr) (u : PyStr)
    (h : dmem (cmdUsersKick s c).state.connections u = true) :
    dmem s.connections u = true := by
  unfold cmdUsersKick at h
  dsimp only at h
  split at h
  · split at h
    · split at h
      · exact dmem_derase_imp (by simpa using h)
      · exact h
    · split at h
      · exact dmem_derase_imp (by simpa using h)
      · exact h
  · exact h

theorem disconnectConnPhase_conns_shrink (s : ServerState) (ws : Nat) (u : PyStr)
    (h : dmem (disconnectConnPhase s ws).state.connections u = true) :
    dmem s.connections u = true := by
  unfold disconnectConnPhase at h
  split at h
  · exact h
  · dsimp only at h
    split at h
    · split at h
      · exact dmem_derase_imp (by simpa using h)
      · exact h
    · split at h
      · exact dmem_derase_imp (by simpa using h)
      · exact h

theorem disconnectConnPhase_wl (s : ServerState) (ws : Nat) :
    (disconnectConnPhase s ws).state.wait_list = s.wait_list := by
  unfold disconnectConnPhase
  repeat' split
  all_goals try rfl
  all_goals (dsimp only; repeat' split)
  all_goals rfl

theorem handlerDisconnect_conns_shrink (s : ServerState) (ws : Nat) (u : PyStr)
    (h : dmem (handlerDisconnect s ws).state.connections u = true) :
    dmem s.connections u = true := by
  unfold handlerDisconnect at h
  dsimp only at h
  split at h
  · exact disconnectConnPhase_conns_shrink s ws u h
  · split at h
    · exact disconnectConnPhase_conns_shrink s ws u h
    · exact disconnectConnPhase_conns_shrink s ws u (by simpa using h)

theorem handlerDisconnect_wl_shrink (s : ServerState) (ws : Nat) (u : PyStr)
    (h : dmem (handlerDisconnect s ws).state.wait_list u = true) :
    dmem s.wait_list u = true := by
  unfold handlerDisconnect at h
  dsimp only at h
  split at h
  · rw [disconnectConnPhase_wl] at h; exact h
  · split at h
    · rw [disconnectConnPhase_wl] at h; exact h
    · rename_i client snd heq
      have h2 : dmem (derase (disconnectConnPhase s ws).state.wait_list client) u = true := by
        simpa using h
      rw [disconnectConnPhase_wl] at h2
      exact dmem_derase_imp h2

theorem disjoint_of_shrink {s s' : ServerState}
    (hc : ∀ u, dmem s'.connections u = true → dmem s.connections u = true)
    (hw : ∀ u, dmem s'.wait_list u = true → dmem s.wait_list u = true)
    (hd : disjointCW s) : disjointCW s' := by
  intro u hu
  cases hq : dmem s'.wait_list u
  · rfl
  · exact absurd (hw u hq) (by simp [hd u (hc u hu)])

theorem authenticate_pres (s : ServerState) (frm : PyStr) (ws : Nat)
    (hd : disjointCW s) : disjointCW (authenticate s frm ws).state := by
  unfold authenticate
  split
  · exact hd
  · rename_i hfrm
    intro u hu
    have hu2 : dmem s.connections u = true := by simpa using hu
    have hne : ¬ u = frm := fun hh => hfrm (by rw [← hh]; exact hu2)
    show dmem (dinsert s.wait_list frm ws) u = false
    cases hq : dmem (dinsert s.wait_list frm ws) u
    · rfl
    · rcases (dmem_dinsert_iff _ _ _ _).mp hq with h | h
      · exact absurd h hne
      · exact absurd h (by simp [hd u hu2])

theorem cmdAuthAccept_pres (s : ServerState) (c : PyStr)
    (hd : disjointCW s) : disjointCW (cmdAuthAccept s c).state := by
  unfold cmdAuthAccept
  split
  · rename_i w heq
    intro u hu
    have hu2 : dmem (dinsert s.connections c w) u = true := by simpa using hu
    show dmem (derase s.wait_list c) u = false
    rcases (dmem_dinsert_iff _ _ _ _).mp hu2 with h | h
    · exact h ▸ dmem_derase_self s.wait_list c
    · exact dmem_derase_false (hd u h)
  · exact hd

theorem cmdAuthReject_pres (s : ServerState) (c : PyStr)
    (hd : disjointCW s) : disjointCW (cmdAuthReject s c).state := by
  unfold cmdAuthReject
  split
  · intro u hu
    have hu2 : dmem s.connections u = true := by simpa using hu
    show dmem (derase s.wait_list c) u = false
    exact dmem_derase_false (hd u hu2)
  · exact hd

theorem handleFrame_pres (s : ServerState) (f : Frame) (ws : Nat)
    (hd : disjointCW s) : disjointCW (handleFrame s f ws).state := by
  unfold handleFrame
  split
  · exact hd
  · split
    · split
      · exact hd
      · exact hd
    · split
      · exact hd
      · split
        · exact authenticate_pres s f.frm ws hd
        · split
          · exact disjoint_of_shrink
              (fun u hu => by rw [(handle_flag_sess s f ws).1] at hu; exact hu)
              (fun u hu => by rw [(handle_flag_sess s f ws).2] at hu; exact hu) hd
          · split
            · exact disjoint_of_shrink
                (fun u hu => by rw [handle_pm_state s f] at hu; exact hu)
                (fun u hu => by rw [handle_pm_state s f] at hu; exact hu) hd
            · split
              · exact disjoint_of_shrink
                  (fun u hu => by rw [(handle_team_sess s f ws).1] at hu; exact hu)
                  (fun u hu => by rw [(handle_team_sess s f ws).2] at hu; exact hu) hd
              · exact hd

theorem step_pres {s s' : ServerState} (hs : Step s s') (hd : disjointCW s) :
    disjointCW s' := by
  cases hs with
  | frame f ws => exact handleFrame_pres s f ws hd
  | disconnect ws =>
    exact disjoint_of_shrink (handlerDisconnect_conns_shrink s ws)
      (handlerDisconnect_wl_shrink s ws) hd
  | opAuthAccept c => exact cmdAuthAccept_pres s c hd
  | opAuthReject c => exact cmdAuthReject_pres s c hd
  | opUsersKick c =>
    exact disjoint_of_shrink (cmdUsersKick_conns_shrink s c)
      (fun u hu => by rwa [cmdUsersKick_wl] at hu) hd
  | opTeamAuth t =>
    exact disjoint_of_shrink
      (fun u hu => by rw [(cmdTeamAuth_sess s t).1] at hu; exact hu)
      (fun u hu => by rw [(cmdTeamAuth_sess s t).2] at hu; exact hu) hd
  | opTeamDq t =>
    exact disjoint_of_shrink (cmdTeamDq_conns_shrink s t)
      (fun u hu => by rwa [cmdTeamDq_wl] at hu) hd
  | opFlagSubmit ch v p =>
    exact disjoint_of_shrink (fun u hu => hu) (fun u hu => hu) hd

theorem reachable_disjoint (s : ServerState) (h : Reachable s) : disjointCW s := by
  induction h with
  | init => intro u hu; simp [initialState, dmem, dlookup] at hu
  | step hr hs ih => exact step_pres hs ih

theorem send_msg_delivers {conns : List (PyStr × Nat)} {closed : Nat → Bool}
    {sender u : PyStr} {c : Nat} (hmem : (u, c) ∈ conns) (hopen : closed c = false)
    (hcond : (u != sender || sender == some "server") = true) :
    u ∈ send_msg_delivered conns closed sender := by
  induction conns with
  | nil => simp at hmem
  | cons p rest ih =>
    obtain ⟨name, cc⟩ := p
    rcases List.mem_cons.mp hmem with h | h
    · cases h
      rw [send_msg_delivered, if_pos hcond]
      simp [hopen]
    · rw [send_msg_delivered]
      split
      · exact List.mem_append_right _ (ih h)
      · exact ih h

theorem mem_send_msg_delivered_elim {conns : List (PyStr × Nat)} {closed : Nat → Bool}
    {sender u : PyStr} (h : u ∈ send_msg_delivered conns closed sender) :
    ∃ c, (u, c) ∈ conns ∧ closed c = false ∧
      (u != sender || sender == some "server") = true := by
  induction conns with
  | nil => simp [send_msg_delivered] at h
  | cons p rest ih =>
    obtain ⟨name, cc⟩ := p
    rw [send_msg_delivered] at h
    split at h
    · rename_i hcond
      rcases List.mem_append.mp h with h | h
      · by_cases hcl : closed cc = true
        · simp [hcl] at h
        · simp [hcl] at h
          subst h
          exact ⟨cc, List.mem_cons_self _ _, by simpa using hcl, hcond⟩
      · obtain ⟨c, hc1, hc2, hc3⟩ := ih h
        exact ⟨c, List.mem_cons_of_mem _ hc1, hc2, hc3⟩
    · obtain ⟨c, hc1, hc2, hc3⟩ := ih h
      exact ⟨c, List.mem_cons_of_mem _ hc1, hc2, hc3⟩

theorem send_announcement_delivers {conns : List (PyStr × Nat)} {closed : Nat → Bool}
    {u : PyStr} {c : Nat} (hmem : (u, c) ∈ conns) (hopen : closed c = false) :
    u ∈ send_announcement_delivered conns closed := by
  induction conns with
  | nil => simp at hmem
  | cons p rest ih =>
    obtain ⟨name, cc⟩ := p
    rcases List.mem_cons.mp hmem with h | h
    · cases h
      rw [send_announcement_delivered]
      simp [hopen]
    · rw [send_announcement_delivered]
      exact List.mem_append_right _ (ih h)

theorem team_fanout_delivers {members : List PyStr} {conns : List (PyStr × Nat)}
    {closed : Nat → Bool} {u : PyStr} {c : Nat} (hm : u ∈ members)
    (hc : dlookup conns u = some c) (hopen : closed c = false) :
    u ∈ team_fanout members conns closed := by
  induction members with
  | nil => simp at hm
  | cons m rest ih =>
    rcases List.mem_cons.mp hm with h | h
    · subst h
      rw [team_fanout, hc]
      simp [hopen]
    · rw [team_fanout]
      split
      · exact List.mem_append_right _ (ih h)
      · exact ih h

theorem mem_team_fanout_elim {members : List PyStr} {conns : List (PyStr × Nat)}
    {closed : Nat → Bool} {u : PyStr} (h : u ∈ team_fanout members conns closed) :
    u ∈ members ∧ ∃ c, dlookup conns u = some c ∧ closed c = false := by
  induction members with
  | nil => simp [team_fanout] at h
  | cons m rest ih =>
    rw [team_fanout] at h
    split at h
    · rename_i c heq
      rcases List.mem_append.mp h with h | h
      · by_cases hcl : closed c = true
        · simp [hcl] at h
        · simp [hcl] at h
          subst h
          exact ⟨List.mem_cons_self _ _, c, heq, by simpa using hcl⟩
      · obtain ⟨h1, h2⟩ := ih h
        exact ⟨List.mem_cons_of_mem _ h1, h2⟩
    · obtain ⟨h1, h2⟩ := ih h
      exact ⟨List.mem_cons_of_mem _ h1, h2⟩

theorem reach_st2 : Reachable st2 :=
  Reachable.step (Reachable.step Reachable.init (Step.frame initialState fAuthAlice 1))
    (Step.opAuthAccept st1 (some "alice"))

theorem reach_st4 : Reachable st4 :=
  Reachable.step (Reachable.step reach_st2 (Step.frame st2 fAuthBob 2))
    (Step.opAuthAccept st3 (some "bob"))

theorem reach_st6 : Reachable st6 :=
  Reachable.step (Reachable.step reach_st4 (Step.frame st4 fCreateRed 1))
    (Step.opTeamAuth st5 (some "red"))

theorem reach_st9 : Reachable st9 :=
  Reachable.step (Reachable.step (Reachable.step reach_st6 (Step.frame st6 fCreateBlue 2))
    (Step.opTeamAuth st7 (some "blue"))) (Step.frame st8 fJoinBlueAlice 1)

theorem reach_tt8 : Reachable tt8 :=
  Reachable.step (Reachable.step reach_st6 (Step.frame st6 fJoinRedBob 2))
    (Step.disconnect tt7 1)

/-- C1: refuted as stated; the code is at fault.  At the reachable state
`st2` the connected user alice belongs to no team; her connection
closing runs the disconnect cleanup, which does emit the disconnected
announcement but then raises KeyError at `del self.user_to_team[client]`
(server.py:220), leaving alice in the connected table: the cleanup
neither completes nor removes her. -/
theorem c1_disconnect_of_teamless_user_raises :
    Reachable st2 ∧
    dmem st2.connections (some "alice") = true ∧
    pyget st2.user_to_team (some "alice") = none ∧
    (handlerDisconnect st2 1).raised = some "KeyError" ∧
    Event.announceOb "User `alice` has disconnected" ∈ (handlerDisconnect st2 1).events ∧
    dmem (handlerDisconnect st2 1).state.connections (some "alice") = true :=
  ⟨reach_st2, by decide, by decide, by decide, by decide, by decide⟩

/-- C2: refuted as stated; the code is at fault.  In the reachable state
`st9`, alice - already the sole member of authenticated team red - has
joined authenticated team blue (server.py:967 appends without checking
existing membership), so she is a member of two authenticated teams
while `memberOf[alice]` points only at blue. -/
theorem c2_join_breaks_one_team_per_user :
    Reachable st9 ∧
    pyget st9.user_to_team (some "alice") = some "blue" ∧
    dlookup st9.teams (some "red") = some ⟨some "pw", [some "alice"], some "alice"⟩ ∧
    dlookup st9.teams (some "blue") = some ⟨some "pw2", [some "bob", some "alice"], some "bob"⟩ ∧
    (some "red" : PyStr) ≠ some "blue" :=
  ⟨reach_st9, by decide, by decide, by decide, by decide⟩

/-- C3: refuted as stated; the code is at fault.  In the reachable state
`tt8`, red's leader alice has disconnected; the cleanup removed her from
the member list but left her as `leader` (server.py:216 never touches
the leader field), so red survives with leader ∉ members. -/
theorem c3_disconnect_breaks_leader_in_members :
    Reachable tt8 ∧
    ∃ t, dlookup tt8.teams (some "red") = some t ∧
      t.leader ∉ t.members :=
  ⟨reach_tt8, ⟨some "pw", [some "bob"], some "alice"⟩, by decide, by decide⟩

/-- C4 counterexample: a `team` frame that is a join - not a create -
from the never-connected sender eve passes the authentication gate
(server.py:239 exempts every `team` type), reaches `handle_team`, and
mutates the registry: eve is appended to red and mapped in
`user_to_team`.  The claim that only team-create requests are exempt is
false. -/
theorem c4_counterexample_team_join_bypasses_gate :
    Reachable st6 ∧
    dmem st6.connections (some "eve") = false ∧
    fJoinRedEve.type = some "team" ∧
    fJoinRedEve.action = some "join" ∧
    (handleFrame st6 fJoinRedEve 99).state ≠ st6 ∧
    dmem (handleFrame st6 fJoinRedEve 99).state.user_to_team (some "eve") = true ∧
    (∃ t, dlookup (handleFrame st6 fJoinRedEve 99).state.teams (some "red") = some t ∧
      (some "eve") ∈ t.members) :=
  ⟨reach_st6, by decide, by decide, by decide, by decide, by decide,
   ⟨some "pw", [some "alice", some "eve"], some "alice"⟩, by decide, by decide⟩

/-- C4 (amended): a well-formed frame whose sender is not in the
connected table and whose type is neither `auth` nor `team` (rather
than "not a team create") is rejected and logged without invoking any
handler and without any registry or FlagStore change. -/
theorem c4_unauthenticated_frame_rejected (s : ServerState) (f : Frame) (ws : Nat)
    (h1 : dmem s.connections f.frm = false)
    (h2 : f.type ≠ some "auth") (h3 : f.type ≠ some "team") :
    handleFrame s f ws =
      ⟨s, [Event.log ("ERROR: Unauthenticated client: " ++ pyRepr f.frm)], none⟩ := by
  have e2 : (f.type == some "auth") = false := beq_eq_false_iff_ne.mpr h2
  have e3 : (f.type == some "team") = false := beq_eq_false_iff_ne.mpr h3
  simp [handleFrame, h1, e2, e3]

/-- C4 witness: a `flag` frame from the unconnected alice at startup is
dropped with only a log, state unchanged. -/
theorem c4_unauthenticated_frame_rejected_witness :
    handleFrame initialState fShowAlice 5 =
      ⟨initialState, [Event.log "ERROR: Unauthenticated client: alice"], none⟩ :=
  c4_unauthenticated_frame_rejected initialState fShowAlice 5 (by decide)
    (by decide) (by decide)

/-- C5: refuted as stated; the code is at fault.  At the reachable state
`st4` the connected user bob belongs to no team; `/users kick bob`
announces the kick, then raises KeyError at
`del self.user_to_team[client]` (server.py:355) before ever closing the
socket or deleting the connection entry, so bob stays connected. -/
theorem c5_kick_of_teamless_user_raises :
    Reachable st4 ∧
    dmem st4.connections (some "bob") = true ∧
    pyget st4.user_to_team (some "bob") = none ∧
    (cmdUsersKick st4 (some "bob")).raised = some "KeyError" ∧
    dmem (cmdUsersKick st4 (some "bob")).state.connections (some "bob") = true ∧
    Event.closeConn (some "bob") ∉ (cmdUsersKick st4 (some "bob")).events :=
  ⟨reach_st4, by decide, by decide, by decide, by decide, by decide⟩

/-- C6 counterexample: at the reachable state `st4` alice is connected
with no team; her breakroom `msg` with no recipient is not answered
with an error - the handler falls through to `send_msg` and broadcasts
it, and with every connection open it is delivered to bob. -/
theorem c6_counterexample_teamless_breakroom_broadcasts :
    Reachable st4 ∧
    pyget st4.user_to_team (some "alice") = none ∧
    handleMsgNoTo st4 (some "alice") true (some "hi") = MsgRoute.broadcast (some "alice") ∧
    deliverRoute st4 (fun _ => false) (handleMsgNoTo st4 (some "alice") true (some "hi")) =
      [some "bob"] ∧
    (handleFrame st4 fMsgBreakroomAlice 1).events =
      [Event.log "INFO: Message", Event.announceOb "broadcast from alice"] :=
  ⟨reach_st4, by decide, by decide, by decide, by decide⟩

/-- C6 (amended): a recipient-less breakroom `msg` from a sender with no
truthy team entry is routed to the all-connected broadcast (delivered
exactly to the open connections other than the sender, with no error
reply); from a sender with a truthy team entry it is routed to the team
fan-out tagged `[<from>] <content>` and delivered exactly to the team's
currently connected open members. -/
theorem c6_breakroom_msg_routing (s : ServerState) (closed : Nat → Bool)
    (frm content u : PyStr) :
    (truthy (pyget s.user_to_team frm) = false →
      handleMsgNoTo s frm true content = MsgRoute.broadcast frm ∧
      (u ∈ deliverRoute s closed (handleMsgNoTo s frm true content) ↔
        ∃ c, (u, c) ∈ s.connections ∧ closed c = false ∧
          (u != frm || frm == some "server") = true)) ∧
    (truthy (pyget s.user_to_team frm) = true →
      handleMsgNoTo s frm true content =
        MsgRoute.team (pyget s.user_to_team frm)
          ("[" ++ pyRepr frm ++ "] " ++ pyRepr content) ∧
      (u ∈ deliverRoute s closed (handleMsgNoTo s frm true content) ↔
        ∃ t, dlookup s.teams (pyget s.user_to_team frm) = some t ∧ u ∈ t.members ∧
          ∃ c, dlookup s.connections u = some c ∧ closed c = false)) := by
  constructor
  · intro h
    have hroute : handleMsgNoTo s frm true content = MsgRoute.broadcast frm := by
      simp [handleMsgNoTo, h]
    refine ⟨hroute, ?_⟩
    rw [hroute]
    constructor
    · exact fun hu => mem_send_msg_delivered_elim hu
    · rintro ⟨c, h1, h2, h3⟩
      exact send_msg_delivers h1 h2 h3
  · intro h
    have hroute : handleMsgNoTo s frm true content =
        MsgRoute.team (pyget s.user_to_team frm)
          ("[" ++ pyRepr frm ++ "] " ++ pyRepr content) := by
      simp [handleMsgNoTo, h]
    refine ⟨hroute, ?_⟩
    rw [hroute]
    show u ∈ send_team_message_delivered s closed (pyget s.user_to_team frm) ↔ _
    unfold send_team_message_delivered
    cases heq : dlookup s.teams (pyget s.user_to_team frm) with
    | none => simp
    | some t =>
      simp only [Option.some.injEq]
      constructor
      · intro hu
        obtain ⟨h1, c, h2, h3⟩ := mem_team_fanout_elim hu
        exact ⟨t, rfl, h1, c, h2, h3⟩
      · rintro ⟨t2, ht2, h1, c, h2, h3⟩
        subst ht2
        exact team_fanout_delivers h1 h2 h3

/-- C6 witness: at `tt7` bob is in red with alice; his breakroom message
is routed to red tagged `[bob] yo` and delivered to alice and bob. -/
theorem c6_breakroom_msg_routing_witness :
    handleMsgNoTo tt7 (some "bob") true (some "yo") =
      MsgRoute.team (some "red") "[bob] yo" ∧
    (some "alice") ∈ deliverRoute tt7 (fun _ => false)
      (handleMsgNoTo tt7 (some "bob") true (some "yo")) := by
  have h := (c6_breakroom_msg_routing tt7 (fun _ => false) (some "bob") (some "yo")
    (some "alice")).2 (by decide)
  exact ⟨h.1, h.2.mpr ⟨⟨some "pw", [some "alice", some "bob"], some "alice"⟩,
    by decide, by decide, 1, by decide, rfl⟩⟩

/-- C7: confirmed.  At every state reachable from server start through
any sequence of frames, disconnects and operator commands, no username
is simultaneously in the connected table and the waitlist:
`authenticate` inserts into the waitlist only when the name is not
connected (and silently ignores the request when it is), and the accept
command removes the waitlist entry in the same operation that adds the
connection. -/
theorem c7_connected_waitlist_disjoint (s : ServerState) (h : Reachable s) :
    disjointCW s :=
  reachable_disjoint s h

/-- C7 witness: the reachable state `st2` has alice connected, and she
is indeed not waitlisted. -/
theorem c7_connected_waitlist_disjoint_witness :
    dmem st2.connections (some "alice") = true ∧
    dmem st2.wait_list (some "alice") = false :=
  ⟨by decide, c7_connected_waitlist_disjoint st2 reach_st2 (some "alice") (by decide)⟩

/-- C8 counterexample: at `vf5` (one stored flag row, alice connected
with no team) a flag `show` from alice is answered with the rejection
reply "You must be in a team to submit flags" (server.py:738-747 gates
every flag action on team membership) instead of the row list the claim
promises for team-less senders. -/
theorem c8_counterexample_show_without_team_rejected :
    vf5.flags = [⟨some "chal", some "FLAG", 100, none⟩] ∧
    pyget vf5.user_to_team (some "alice") = none ∧
    (handle_flag vf5 fShowAlice 1).events =
      [Event.reply 1 (Reply.flagReject "You must be in a team to submit flags"),
       Event.log "ERROR: User `alice` not in a team"] :=
  ⟨by decide, by decide, by decide⟩

/-- C8 (amended): for a sender that does have a (truthy) team, a flag
`show` request replies to the requesting websocket only, with exactly
the rows filtered by the sender's team when breakroom scope was
requested and all rows otherwise, changing no state; a sender with no
team is rejected instead. -/
theorem c8_show_replies_rows_to_sender (s : ServerState) (f : Frame) (ws : Nat)
    (tn : String) (h1 : pyget s.user_to_team f.frm = some tn) (h2 : tn ≠ "")
    (h3 : f.caction = some "show") :
    (handle_flag s f ws).state = s ∧ (handle_flag s f ws).raised = none ∧
    ∃ rows, (handle_flag s f ws).events = [Event.reply ws (Reply.flagRows rows)] ∧
      ∀ r, r ∈ rows ↔ (r ∈ s.flags ∧ (f.breakroom = true → r.team = some tn)) := by
  have ht : truthy (pyget s.user_to_team f.frm) = true := by
    rw [h1]; simp [truthy, h2]
  have hsub : (f.caction == some "submit") = false := by rw [h3]; rfl
  have hshow : (f.caction == some "show") = true := by rw [h3]; rfl
  refine ⟨?_, ?_, ?_⟩
  · simp [handle_flag, ht, hsub, hshow]
  · simp [handle_flag, ht, hsub, hshow]
  · refine ⟨if truthy (pyget s.user_to_team f.frm) && f.breakroom then
        s.flags.filter (fun r => r.team == pyget s.user_to_team f.frm)
      else s.flags, ?_, ?_⟩
    · simp [handle_flag, ht, hsub, hshow]
    · intro r
      cases hb : f.breakroom
      · simp [ht, hb]
      · simp only [ht, hb, Bool.and_self, if_pos]
        rw [List.mem_filter, h1]
        simp [beq_iff_eq]

/-- C8 witness: at `uf7` alice is in red with one stored row; her
breakroom `show` is answered with exactly red's rows. -/
theorem c8_show_replies_rows_to_sender_witness :
    (handle_flag uf7 fShowAliceBreakroom 1).state = uf7 ∧
    (handle_flag uf7 fShowAliceBreakroom 1).raised = none ∧
    ∃ rows, (handle_flag uf7 fShowAliceBreakroom 1).events =
        [Event.reply 1 (Reply.flagRows rows)] ∧
      ∀ r, r ∈ rows ↔ (r ∈ uf7.flags ∧
        (fShowAliceBreakroom.breakroom = true → r.team = some "red")) :=
  c8_show_replies_rows_to_sender uf7 fShowAliceBreakroom 1 "red" (by decide)
    (by decide) (by decide)

/-- C9: confirmed.  The broadcast and announcement fan-outs iterate the
whole connected set and swallow a closed connection per recipient: any
eligible recipient whose own connection is open receives the message,
no matter which or how many other recipients' connections are closed. -/
theorem c9_fanout_isolates_failed_sends (conns : List (PyStr × Nat))
    (closed : Nat → Bool) (sender u : PyStr) (c : Nat)
    (hmem : (u, c) ∈ conns) (hopen : closed c = false) :
    ((u != sender || sender == some "server") = true →
      u ∈ send_msg_delivered conns closed sender) ∧
    u ∈ send_announcement_delivered conns closed :=
  ⟨fun hcond => send_msg_delivers hmem hopen hcond,
   send_announcement_delivers hmem hopen⟩

/-- C9 witness: with bob's connection closed, a server broadcast and an
announcement over {alice, bob} still reach alice. -/
theorem c9_fanout_isolates_failed_sends_witness :
    (some "alice") ∈ send_msg_delivered [(some "alice", 1), (some "bob", 2)]
      (fun c => c == 2) (some "server") ∧
    (some "alice") ∈ send_announcement_delivered [(some "alice", 1), (some "bob", 2)]
      (fun c => c == 2) := by
  have h := c9_fanout_isolates_failed_sends [(some "alice", 1), (some "bob", 2)]
    (fun c => c == 2) (some "server") (some "alice") 1 (by simp) rfl
  exact ⟨h.1 rfl, h.2⟩

/-- C10: confirmed.  A repeated auth request for a name already
waitlisted (and not connected) overwrites the waitlist entry with the
new websocket and replies `pending` on the new connection; provided the
old websocket was referenced only by that entry (and the dict has
distinct keys, as Python dicts do), the waitlist no longer references
the old websocket at all. -/
theorem c10_reauth_overwrites_waitlist_entry (s : ServerState) (u : PyStr)
    (oldWs newWs : Nat) (hnd : nodupKeys s.wait_list)
    (hconn : dmem s.connections u = false)
    (_hwl : dlookup s.wait_list u = some oldWs) :
    dlookup (authenticate s u newWs).state.wait_list u = some newWs ∧
    Event.reply newWs (Reply.auth "pending" u) ∈ (authenticate s u newWs).events ∧
    (oldWs ≠ newWs → (∀ p ∈ s.wait_list, p.2 = oldWs → p.1 = u) →
      ∀ p ∈ (authenticate s u newWs).state.wait_list, p.2 ≠ oldWs) := by
  have hstate : (authenticate s u newWs).state =
      {s with wait_list := dinsert s.wait_list u newWs} := by
    simp [authenticate, hconn]
  have hev : (authenticate s u newWs).events =
      [Event.log ("INFO: Auth request from `" ++ pyRepr u ++ "`"),
       Event.reply newWs (Reply.auth "pending" u)] := by
    simp [authenticate, hconn]
  refine ⟨?_, ?_, ?_⟩
  · rw [hstate]
    show dlookup (dinsert s.wait_list u newWs) u = some newWs
    rw [dlookup_dinsert]
    simp
  · rw [hev]
    simp
  · intro hne hall p hp
    rw [hstate] at hp
    rcases mem_dinsert_elim hnd hp with h | h
    · subst h
      exact fun hh => hne hh.symm
    · intro hpo
      exact h.2 (hall p h.1 hpo)

/-- C10 witness: alice waitlisted on websocket 1 re-auths on websocket
7; the entry now maps to 7, `pending` goes out on 7, and no waitlist
entry references websocket 1 any more. -/
theorem c10_reauth_overwrites_waitlist_entry_witness :
    dlookup (authenticate st1 (some "alice") 7).state.wait_list (some "alice") = some 7 ∧
    Event.reply 7 (Reply.auth "pending" (some "alice")) ∈
      (authenticate st1 (some "alice") 7).events ∧
    ∀ p ∈ (authenticate st1 (some "alice") 7).state.wait_list, p.2 ≠ 1 := by
  have h := c10_reauth_overwrites_waitlist_entry st1 (some "alice") 1 7
    (by unfold nodupKeys; decide) (by decide) (by decide)
  exact ⟨h.1, h.2.1, h.2.2 (by decide) (by decide)⟩
